import Mathlib

/-!
Verification of the brick-breaker game (a Breakout clone).

The repository contains two variants of the same React component:
a fixed-size variant (800x600 canvas, constant ball speed) and a
responsive variant (window-sized canvas, progressive ball speed).
Namespace `P` embeds the fixed-size variant over `ℚ`; namespace `R`
embeds the responsive variant over `ℝ`.  The React component's
mutable `gameStateRef` plus the `gameState`/`score` React state is
modelled as an explicit record, and each callback
(`updateGame`, `gameLoop`, `handleKeyDown`, `handleKeyUp`,
`resetGame`, `checkCollision`) becomes a pure function on it.
`Math.random` in the ball reset is modelled by an explicit `coin`
parameter for the sign of `dx`.
-/

/-- An axis-aligned rectangle: the `GameObject` interface (`x`, `y`,
`width`, `height`). -/
structure Rect (α : Type) where
  x : α
  y : α
  width : α
  height : α
deriving DecidableEq

/-- The `Ball` interface: a `GameObject` plus velocity `dx`, `dy` and
scalar `speed`. -/
structure Ball (α : Type) extends Rect α where
  dx : α
  dy : α
  speed : α
deriving DecidableEq

/-- The `Brick` interface: a `GameObject` plus a `destroyed` flag. -/
structure Brick (α : Type) extends Rect α where
  destroyed : Bool
deriving DecidableEq

/-- The four values of the `gameState` React state. -/
inductive GameStatus
  | playing
  | paused
  | gameOver
  | won
deriving DecidableEq

/-- `checkCollision(rect1, rect2)`: the axis-aligned bounding-box
overlap test, identical in both variants. -/
def checkCollision [LinearOrderedField α] (rect1 rect2 : Rect α) : Prop :=
  rect1.x < rect2.x + rect2.width ∧
  rect1.x + rect1.width > rect2.x ∧
  rect1.y < rect2.y + rect2.height ∧
  rect1.y + rect1.height > rect2.y

instance {α : Type} [LinearOrderedField α] [∀ a b : α, Decidable (a < b)]
    (r1 r2 : Rect α) : Decidable (checkCollision r1 r2) := by
  unfold checkCollision
  exact inferInstance

/-- `ball.x += ball.dx; ball.y += ball.dy`, identical in both variants. -/
def moveBall [LinearOrderedField α] (b : Ball α) : Ball α :=
  { b with x := b.x + b.dx, y := b.y + b.dy }

/-- Number of destroyed bricks in a brick list. -/
def countDestroyed (l : List (Brick α)) : ℕ :=
  l.countP (fun b => b.destroyed)

namespace P

/-! The fixed-size variant.  Module-level constants from the source. -/

def CANVAS_WIDTH : ℚ := 800
def CANVAS_HEIGHT : ℚ := 600
def PADDLE_WIDTH : ℚ := 100
def PADDLE_HEIGHT : ℚ := 10
def BALL_SIZE : ℚ := 10
def BRICK_WIDTH : ℚ := 75
def BRICK_HEIGHT : ℚ := 20
def BRICK_ROWS : ℕ := 8
def BRICK_COLS : ℕ := 10
def BRICK_PADDING : ℚ := 5
def BALL_SPEED : ℚ := 5

/-- The whole mutable game state: `gameStateRef.current` (ball, paddle,
bricks, keys) together with the `score` and `gameState` React state. -/
structure GState where
  ball : Ball ℚ
  paddle : Rect ℚ
  bricks : List (Brick ℚ)
  keysLeft : Bool
  keysRight : Bool
  score : ℤ
  status : GameStatus
deriving DecidableEq

/-- `initializeBricks`: the 8 x 10 grid of bricks, all with
`destroyed: false`. -/
def initialBricks : List (Brick ℚ) :=
  let offsetTop : ℚ := 50
  let offsetLeft : ℚ :=
    (CANVAS_WIDTH - ((BRICK_COLS : ℚ) * (BRICK_WIDTH + BRICK_PADDING) - BRICK_PADDING)) / 2
  (List.range BRICK_ROWS).flatMap (fun row =>
    (List.range BRICK_COLS).map (fun col =>
      { x := offsetLeft + (col : ℚ) * (BRICK_WIDTH + BRICK_PADDING),
        y := offsetTop + (row : ℚ) * (BRICK_HEIGHT + BRICK_PADDING),
        width := BRICK_WIDTH,
        height := BRICK_HEIGHT,
        destroyed := false }))

/-- The "Move paddle" block of `updateGame`: each pressed key moves the
paddle 8 pixels, the second `if` seeing the position left by the first. -/
def movePaddle (keysLeft keysRight : Bool) (paddle : Rect ℚ) : Rect ℚ :=
  let p1 := if keysLeft ∧ paddle.x > 0 then { paddle with x := paddle.x - 8 } else paddle
  if keysRight ∧ p1.x < CANVAS_WIDTH - p1.width then { p1 with x := p1.x + 8 } else p1

/-- The "Ball collision with walls" block of `updateGame`. -/
def wallBounce (b : Ball ℚ) : Ball ℚ :=
  let b1 := if b.x ≤ 0 ∨ b.x ≥ CANVAS_WIDTH - b.width then { b with dx := -b.dx } else b
  if b1.y ≤ 0 then { b1 with dy := -b1.dy } else b1

/-- The "Ball collision with paddle" block of `updateGame`. -/
def paddleBounce (paddle : Rect ℚ) (b : Ball ℚ) : Ball ℚ :=
  if checkCollision b.toRect paddle ∧ b.dy > 0 then
    let hitPos := (b.x + b.width / 2 - paddle.x) / paddle.width
    { b with dx := b.speed * (hitPos - 1/2) * 2, dy := -|b.dy| }
  else b

/-- Accumulator of the `bricks.forEach` loop: the bricks visited so far,
the current `ball.dy` and the running `newScore`. -/
structure BrickAcc where
  bricks : List (Brick ℚ)
  dy : ℚ
  newScore : ℤ
deriving DecidableEq

/-- One iteration of the `bricks.forEach` loop in `updateGame`. -/
def brickVisit (ballRect : Rect ℚ) (acc : BrickAcc) (brick : Brick ℚ) : BrickAcc :=
  if brick.destroyed = false ∧ checkCollision ballRect brick.toRect then
    { bricks := acc.bricks ++ [{ brick with destroyed := true }],
      dy := -acc.dy,
      newScore := acc.newScore + 10 }
  else
    { bricks := acc.bricks ++ [brick], dy := acc.dy, newScore := acc.newScore }

/-- The whole "Ball collision with bricks" block of `updateGame`. -/
def brickPhase (ballRect : Rect ℚ) (dy : ℚ) (bricks : List (Brick ℚ)) : BrickAcc :=
  bricks.foldl (brickVisit ballRect) ⟨[], dy, 0⟩

/-- The paddle after the "Move paddle" block. -/
def newPaddle (s : GState) : Rect ℚ :=
  movePaddle s.keysLeft s.keysRight s.paddle

/-- The ball after the "Move ball" and "Ball collision with walls"
blocks. -/
def ballAfterWalls (s : GState) : Ball ℚ :=
  wallBounce (moveBall s.ball)

/-- The ball after the "Ball collision with paddle" block. -/
def ballAfterPaddle (s : GState) : Ball ℚ :=
  paddleBounce (newPaddle s) (ballAfterWalls s)

/-- `updateGame`: one frame of the simulation.  Paddle motion, ball
motion, wall bounce, paddle bounce, the brick loop, the score update,
and the game-over / win checks (the game-over early `return` skips the
win check). -/
def updateGame (s : GState) : GState :=
  let paddle := newPaddle s
  let b3 := ballAfterPaddle s
  let acc := brickPhase b3.toRect b3.dy s.bricks
  let b4 := { b3 with dy := acc.dy }
  let score := if acc.newScore > 0 then s.score + acc.newScore else s.score
  let status :=
    if b4.y > CANVAS_HEIGHT then GameStatus.gameOver
    else if acc.bricks.all (fun b => b.destroyed) then GameStatus.won
    else GameStatus.playing
  { ball := b4, paddle := paddle, bricks := acc.bricks,
    keysLeft := s.keysLeft, keysRight := s.keysRight,
    score := score, status := status }

/-- One invocation of `gameLoop`: `updateGame` (and a render) runs only
when `gameState === 'playing'`; rendering does not touch the simulation
state. -/
def gameLoopTick (s : GState) : GState :=
  if s.status = GameStatus.playing then updateGame s else s

/-- `handleKeyDown`: the `switch` over `e.key`. -/
def handleKeyDown (key : String) (s : GState) : GState :=
  if key = "ArrowLeft" ∨ key = "a" then { s with keysLeft := true }
  else if key = "ArrowRight" ∨ key = "d" then { s with keysRight := true }
  else if key = " " then
    { s with status := if s.status = GameStatus.playing then GameStatus.paused
                       else GameStatus.playing }
  else s

/-- `handleKeyUp`: the `switch` over `e.key`. -/
def handleKeyUp (key : String) (s : GState) : GState :=
  if key = "ArrowLeft" ∨ key = "a" then { s with keysLeft := false }
  else if key = "ArrowRight" ∨ key = "d" then { s with keysRight := false }
  else s

/-- `resetGame`: fresh ball (`coin` models the `Math.random` sign of
`dx`), recentred paddle, fresh bricks, zero score, `'playing'`. -/
def resetGame (coin : Bool) (s : GState) : GState :=
  { ball := { x := CANVAS_WIDTH / 2, y := CANVAS_HEIGHT - 50,
              width := BALL_SIZE, height := BALL_SIZE,
              dx := BALL_SPEED * (if coin then 1 else -1),
              dy := -BALL_SPEED, speed := BALL_SPEED },
    paddle := { s.paddle with x := CANVAS_WIDTH / 2 - PADDLE_WIDTH / 2 },
    bricks := initialBricks,
    keysLeft := s.keysLeft, keysRight := s.keysRight,
    score := 0, status := GameStatus.playing }

/-- The effect of the brick loop on one brick. -/
def smash (ballRect : Rect ℚ) (b : Brick ℚ) : Brick ℚ :=
  if b.destroyed = false ∧ checkCollision ballRect b.toRect then
    { b with destroyed := true }
  else b

/-- How many bricks the ball hits (not yet destroyed and overlapping). -/
def hits (ballRect : Rect ℚ) (bricks : List (Brick ℚ)) : ℕ :=
  bricks.countP (fun b => decide (b.destroyed = false ∧ checkCollision ballRect b.toRect))

end P

namespace R

/-! The responsive variant.  The canvas tracks the window size, so the
constants that depend on it become functions of the width `W` and
height `H`.  Real-number semantics is used for the JavaScript numbers;
the trigonometric speed re-aim uses `Real.cos`/`Real.sin` of
`Math.atan2`. -/

noncomputable section

def PADDLE_WIDTH (W : ℝ) : ℝ := max 120 (W * 0.1)
def PADDLE_HEIGHT : ℝ := 12
def BALL_SIZE : ℝ := 12
def BRICK_WIDTH (W : ℝ) : ℝ := max 60 ((W - 200) / 15)
def BRICK_HEIGHT : ℝ := 25
def BRICK_ROWS : ℕ := 8
def BRICK_COLS (W : ℝ) : ℕ := (⌊(W - 100) / (BRICK_WIDTH W + 8)⌋).toNat
def BRICK_PADDING : ℝ := 8
def INITIAL_BALL_SPEED : ℝ := 2
def MAX_BALL_SPEED : ℝ := 8
def SPEED_INCREASE_FACTOR : ℝ := 0.1

/-- `Math.atan2(y, x)`, the argument of the point `(x, y)`. -/
def atan2 (y x : ℝ) : ℝ := Complex.arg { re := x, im := y }

/-- The whole mutable game state of the responsive variant:
`gameStateRef.current` (ball, paddle, bricks, keys,
`totalBricksDestroyed`) together with the `score` and `gameState`
React state. -/
structure GState where
  ball : Ball ℝ
  paddle : Rect ℝ
  bricks : List (Brick ℝ)
  keysLeft : Bool
  keysRight : Bool
  totalBricksDestroyed : ℕ
  score : ℤ
  status : GameStatus

/-- `initializeBricks`: `BRICK_ROWS x BRICK_COLS` grid of bricks, all
with `destroyed: false`, centred horizontally. -/
def initialBricks (W : ℝ) : List (Brick ℝ) :=
  let offsetTop : ℝ := 80
  let totalBricksWidth : ℝ :=
    (BRICK_COLS W : ℝ) * (BRICK_WIDTH W + BRICK_PADDING) - BRICK_PADDING
  let offsetLeft : ℝ := (W - totalBricksWidth) / 2
  (List.range BRICK_ROWS).flatMap (fun row =>
    (List.range (BRICK_COLS W)).map (fun col =>
      { x := offsetLeft + (col : ℝ) * (BRICK_WIDTH W + BRICK_PADDING),
        y := offsetTop + (row : ℝ) * (BRICK_HEIGHT + BRICK_PADDING),
        width := BRICK_WIDTH W,
        height := BRICK_HEIGHT,
        destroyed := false }))

/-- The "Move paddle" block of `updateGame`: each pressed key moves the
paddle 10 pixels, the second `if` seeing the position left by the
first. -/
def movePaddle (W : ℝ) (keysLeft keysRight : Bool) (paddle : Rect ℝ) : Rect ℝ :=
  let p1 := if keysLeft ∧ paddle.x > 0 then { paddle with x := paddle.x - 10 } else paddle
  if keysRight ∧ p1.x < W - p1.width then { p1 with x := p1.x + 10 } else p1

/-- The "Ball collision with walls" block of `updateGame`. -/
def wallBounce (W : ℝ) (b : Ball ℝ) : Ball ℝ :=
  let b1 := if b.x ≤ 0 ∨ b.x ≥ W - b.width then { b with dx := -b.dx } else b
  if b1.y ≤ 0 then { b1 with dy := -b1.dy } else b1

/-- The "Ball collision with paddle" block of `updateGame`. -/
def paddleBounce (paddle : Rect ℝ) (b : Ball ℝ) : Ball ℝ :=
  if checkCollision b.toRect paddle ∧ b.dy > 0 then
    let hitPos := (b.x + b.width / 2 - paddle.x) / paddle.width
    { b with dx := b.speed * (hitPos - 1/2) * 2, dy := -|b.dy| }
  else b

/-- Accumulator of the `bricks.forEach` loop: the bricks visited so
far, the current `ball.dy`, the running `newScore` and the running
`totalBricksDestroyed`. -/
structure BrickAcc where
  bricks : List (Brick ℝ)
  dy : ℝ
  newScore : ℤ
  total : ℕ

/-- One iteration of the `bricks.forEach` loop in `updateGame` (this
variant also increments `totalBricksDestroyed`). -/
def brickVisit (ballRect : Rect ℝ) (acc : BrickAcc) (brick : Brick ℝ) : BrickAcc :=
  if brick.destroyed = false ∧ checkCollision ballRect brick.toRect then
    { bricks := acc.bricks ++ [{ brick with destroyed := true }],
      dy := -acc.dy,
      newScore := acc.newScore + 10,
      total := acc.total + 1 }
  else
    { bricks := acc.bricks ++ [brick], dy := acc.dy,
      newScore := acc.newScore, total := acc.total }

/-- The whole "Ball collision with bricks" block of `updateGame`. -/
def brickPhase (ballRect : Rect ℝ) (dy : ℝ) (total : ℕ) (bricks : List (Brick ℝ)) : BrickAcc :=
  bricks.foldl (brickVisit ballRect) ⟨[], dy, 0, total⟩

/-- The paddle after the "Move paddle" block. -/
def newPaddle (W : ℝ) (s : GState) : Rect ℝ :=
  movePaddle W s.keysLeft s.keysRight s.paddle

/-- The ball after the "Move ball" and "Ball collision with walls"
blocks. -/
def ballAfterWalls (W : ℝ) (s : GState) : Ball ℝ :=
  wallBounce W (moveBall s.ball)

/-- The ball after the "Ball collision with paddle" block. -/
def ballAfterPaddle (W : ℝ) (s : GState) : Ball ℝ :=
  paddleBounce (newPaddle W s) (ballAfterWalls W s)

/-- `updateGame` of the responsive variant: as in the fixed-size one,
plus the progressive speed increase: when bricks were destroyed this
frame, the speed becomes
`min(INITIAL_BALL_SPEED + totalBricksDestroyed * SPEED_INCREASE_FACTOR, MAX_BALL_SPEED)`
and the velocity vector is re-scaled to that speed along its current
direction `atan2(dy, dx)`. -/
def updateGame (W H : ℝ) (s : GState) : GState :=
  let paddle := newPaddle W s
  let b3 := ballAfterPaddle W s
  let acc := brickPhase b3.toRect b3.dy s.totalBricksDestroyed s.bricks
  let b4 := { b3 with dy := acc.dy }
  let b5 :=
    if acc.newScore > 0 then
      let newSpeed := min (INITIAL_BALL_SPEED + (acc.total : ℝ) * SPEED_INCREASE_FACTOR)
        MAX_BALL_SPEED
      let currentDirection := atan2 b4.dy b4.dx
      { b4 with speed := newSpeed,
                dx := Real.cos currentDirection * newSpeed,
                dy := Real.sin currentDirection * newSpeed }
    else b4
  let score := if acc.newScore > 0 then s.score + acc.newScore else s.score
  let status :=
    if b5.y > H then GameStatus.gameOver
    else if acc.bricks.all (fun b => b.destroyed) then GameStatus.won
    else GameStatus.playing
  { ball := b5, paddle := paddle, bricks := acc.bricks,
    keysLeft := s.keysLeft, keysRight := s.keysRight,
    totalBricksDestroyed := acc.total, score := score, status := status }

/-- One invocation of `gameLoop`: `updateGame` runs only in
`'playing'`; in the other states only `render()` runs, which leaves
the simulation state untouched. -/
def gameLoopTick (W H : ℝ) (s : GState) : GState :=
  if s.status = GameStatus.playing then updateGame W H s else s

/-- `resetGame`: fresh ball (speed `INITIAL_BALL_SPEED`, `coin` models
the `Math.random` sign of `dx`), recentred paddle, zero
`totalBricksDestroyed`, fresh bricks, zero score, `'playing'`. -/
def resetGame (W H : ℝ) (coin : Bool) (s : GState) : GState :=
  { ball := { x := W / 2, y := H - 80,
              width := BALL_SIZE, height := BALL_SIZE,
              dx := INITIAL_BALL_SPEED * (if coin then 1 else -1),
              dy := -INITIAL_BALL_SPEED, speed := INITIAL_BALL_SPEED },
    paddle := { s.paddle with x := W / 2 - PADDLE_WIDTH W / 2 },
    bricks := initialBricks W,
    keysLeft := s.keysLeft, keysRight := s.keysRight,
    totalBricksDestroyed := 0, score := 0, status := GameStatus.playing }

/-- The initial `gameStateRef` contents (after the mount effect has
run `initializeBricks`), with `score` 0 and `gameState` `'playing'`. -/
def initialState (W H : ℝ) (coin : Bool) : GState :=
  { ball := { x := W / 2, y := H - 80,
              width := BALL_SIZE, height := BALL_SIZE,
              dx := INITIAL_BALL_SPEED * (if coin then 1 else -1),
              dy := -INITIAL_BALL_SPEED, speed := INITIAL_BALL_SPEED },
    paddle := { x := W / 2 - PADDLE_WIDTH W / 2, y := H - 40,
                width := PADDLE_WIDTH W, height := PADDLE_HEIGHT },
    bricks := initialBricks W,
    keysLeft := false, keysRight := false,
    totalBricksDestroyed := 0, score := 0, status := GameStatus.playing }

/-- `handleKeyDown` of the responsive variant: as the fixed-size one,
plus `'r'`/`'R'` invoking `resetGame`. -/
def handleKeyDown (key : String) (W H : ℝ) (coin : Bool) (s : GState) : GState :=
  if key = "ArrowLeft" ∨ key = "a" then { s with keysLeft := true }
  else if key = "ArrowRight" ∨ key = "d" then { s with keysRight := true }
  else if key = " " then
    { s with status := if s.status = GameStatus.playing then GameStatus.paused
                       else GameStatus.playing }
  else if key = "r" ∨ key = "R" then resetGame W H coin s
  else s

/-- `handleKeyUp` of the responsive variant. -/
def handleKeyUp (key : String) (s : GState) : GState :=
  if key = "ArrowLeft" ∨ key = "a" then { s with keysLeft := false }
  else if key = "ArrowRight" ∨ key = "d" then { s with keysRight := false }
  else s

/-- The effect of the brick loop on one brick. -/
def smash (ballRect : Rect ℝ) (b : Brick ℝ) : Brick ℝ :=
  if b.destroyed = false ∧ checkCollision ballRect b.toRect then
    { b with destroyed := true }
  else b

/-- How many bricks the ball hits (not yet destroyed and overlapping). -/
def hits (ballRect : Rect ℝ) (bricks : List (Brick ℝ)) : ℕ :=
  bricks.countP (fun b => decide (b.destroyed = false ∧ checkCollision ballRect b.toRect))

end

end R

/-! Concrete states used to instantiate the theorems below. -/

namespace P

/-- A playing state whose ball is about to fall below the bottom edge. -/
def w2state : GState :=
  { ball := ⟨⟨400, 700, 10, 10⟩, 0, 5, 5⟩, paddle := ⟨350, 570, 100, 10⟩,
    bricks := [⟨⟨100, 50, 75, 20⟩, false⟩],
    keysLeft := false, keysRight := false, score := 0, status := GameStatus.playing }

/-- A playing state whose ball is about to destroy one brick. -/
def w3state : GState :=
  { ball := ⟨⟨100, 100, 10, 10⟩, 0, 2, 5⟩, paddle := ⟨350, 570, 100, 10⟩,
    bricks := [⟨⟨95, 105, 20, 10⟩, false⟩],
    keysLeft := false, keysRight := false, score := 0, status := GameStatus.playing }

/-- A state whose ball lands on the paddle left of centre, with no
bricks in reach. -/
def w4state : GState :=
  { ball := ⟨⟨360, 565, 10, 10⟩, 0, 5, 5⟩, paddle := ⟨350, 570, 100, 10⟩,
    bricks := [],
    keysLeft := false, keysRight := false, score := 0, status := GameStatus.playing }

/-- A state whose ball lands on the paddle while also overlapping a
still-live brick placed at paddle height. -/
def c4state : GState :=
  { ball := ⟨⟨395, 569, 10, 10⟩, 0, 1, 5⟩, paddle := ⟨350, 570, 100, 10⟩,
    bricks := [⟨⟨390, 565, 20, 20⟩, false⟩],
    keysLeft := false, keysRight := false, score := 0, status := GameStatus.playing }

/-- A state whose moved ball ends at x = -5, beyond the left wall. -/
def w5state : GState :=
  { ball := ⟨⟨-2, 50, 10, 10⟩, -3, 4, 5⟩, paddle := ⟨350, 570, 100, 10⟩,
    bricks := [],
    keysLeft := false, keysRight := false, score := 0, status := GameStatus.playing }

/-- A state whose ball lands on the paddle, used for the paddle clause
of the hit-detection theorem. -/
def w6state : GState :=
  { ball := ⟨⟨330, 566, 10, 10⟩, 0, 4, 5⟩, paddle := ⟨300, 570, 100, 10⟩,
    bricks := [],
    keysLeft := false, keysRight := false, score := 0, status := GameStatus.playing }

/-- A state whose moved ball lands exactly on the left boundary
x = 0: it touches the wall line without strictly overlapping any
rectangle beyond it. -/
def c6state : GState :=
  { ball := ⟨⟨3, 300, 10, 10⟩, -3, 0, 5⟩, paddle := ⟨350, 570, 100, 10⟩,
    bricks := [],
    keysLeft := false, keysRight := false, score := 0, status := GameStatus.playing }

/-- A rectangle filling the strip left of the play field: its right
edge is the wall line x = 0. -/
def c6wall : Rect ℚ := ⟨-100, 0, 100, 600⟩

/-- A generic playing state for the key-handler theorem. -/
def w7state : GState :=
  { ball := ⟨⟨1, 1, 10, 10⟩, 1, 1, 5⟩, paddle := ⟨0, 570, 100, 10⟩,
    bricks := [],
    keysLeft := false, keysRight := false, score := 0, status := GameStatus.playing }

/-- A paused state for the loop-driver theorem. -/
def w8state : GState :=
  { ball := ⟨⟨1, 1, 10, 10⟩, 1, 1, 5⟩, paddle := ⟨0, 570, 100, 10⟩,
    bricks := [⟨⟨100, 50, 75, 20⟩, false⟩],
    keysLeft := true, keysRight := false, score := 30, status := GameStatus.paused }

/-- A state with one already-destroyed brick, away from the ball. -/
def w9state : GState :=
  { ball := ⟨⟨400, 400, 10, 10⟩, 0, 0, 5⟩, paddle := ⟨350, 570, 100, 10⟩,
    bricks := [⟨⟨10, 10, 75, 20⟩, true⟩],
    keysLeft := false, keysRight := false, score := 10, status := GameStatus.playing }

end P

namespace R

noncomputable section

/-- A generic playing state of the responsive variant. -/
def w7state : GState :=
  { ball := ⟨⟨600, 400, 12, 12⟩, 2, -2, 2⟩, paddle := ⟨540, 760, 120, 12⟩,
    bricks := [],
    keysLeft := false, keysRight := false,
    totalBricksDestroyed := 0, score := 0, status := GameStatus.playing }

/-- A paused state of the responsive variant. -/
def w8state : GState :=
  { ball := ⟨⟨600, 400, 12, 12⟩, 2, -2, 2⟩, paddle := ⟨540, 760, 120, 12⟩,
    bricks := [],
    keysLeft := false, keysRight := false,
    totalBricksDestroyed := 0, score := 0, status := GameStatus.paused }

/-- A responsive-variant state with one destroyed brick, away from the
ball. -/
def w9state : GState :=
  { ball := ⟨⟨600, 400, 12, 12⟩, 0, 0, 2⟩, paddle := ⟨540, 760, 120, 12⟩,
    bricks := [⟨⟨100, 80, 66, 25⟩, true⟩],
    keysLeft := false, keysRight := false,
    totalBricksDestroyed := 1, score := 10, status := GameStatus.playing }

/-- A fresh-speed responsive-variant state with no bricks in reach. -/
def w10state : GState :=
  { ball := ⟨⟨600, 400, 12, 12⟩, 2, -2, 2⟩, paddle := ⟨540, 760, 120, 12⟩,
    bricks := [],
    keysLeft := false, keysRight := false,
    totalBricksDestroyed := 0, score := 0, status := GameStatus.playing }

end

end R

/-! Helper lemmas. -/

@[simp] lemma moveBall_x [LinearOrderedField α] (b : Ball α) :
    (moveBall b).x = b.x + b.dx := rfl

@[simp] lemma moveBall_y [LinearOrderedField α] (b : Ball α) :
    (moveBall b).y = b.y + b.dy := rfl

@[simp] lemma moveBall_width [LinearOrderedField α] (b : Ball α) :
    (moveBall b).width = b.width := rfl

@[simp] lemma moveBall_height [LinearOrderedField α] (b : Ball α) :
    (moveBall b).height = b.height := rfl

@[simp] lemma moveBall_dx [LinearOrderedField α] (b : Ball α) :
    (moveBall b).dx = b.dx := rfl

@[simp] lemma moveBall_dy [LinearOrderedField α] (b : Ball α) :
    (moveBall b).dy = b.dy := rfl

@[simp] lemma moveBall_speed [LinearOrderedField α] (b : Ball α) :
    (moveBall b).speed = b.speed := rfl

namespace P

@[simp] lemma wallBounce_x (b : Ball ℚ) : (wallBounce b).x = b.x := by
  simp only [wallBounce]; split_ifs <;> rfl

@[simp] lemma wallBounce_y (b : Ball ℚ) : (wallBounce b).y = b.y := by
  simp only [wallBounce]; split_ifs <;> rfl

@[simp] lemma wallBounce_width (b : Ball ℚ) : (wallBounce b).width = b.width := by
  simp only [wallBounce]; split_ifs <;> rfl

@[simp] lemma wallBounce_height (b : Ball ℚ) : (wallBounce b).height = b.height := by
  simp only [wallBounce]; split_ifs <;> rfl

@[simp] lemma wallBounce_speed (b : Ball ℚ) : (wallBounce b).speed = b.speed := by
  simp only [wallBounce]; split_ifs <;> rfl

@[simp] lemma wallBounce_toRect (b : Ball ℚ) : (wallBounce b).toRect = b.toRect := by
  simp only [wallBounce]; split_ifs <;> rfl

@[simp] lemma paddleBounce_toRect (p : Rect ℚ) (b : Ball ℚ) :
    (paddleBounce p b).toRect = b.toRect := by
  unfold paddleBounce; split_ifs <;> rfl

@[simp] lemma paddleBounce_speed (p : Rect ℚ) (b : Ball ℚ) :
    (paddleBounce p b).speed = b.speed := by
  unfold paddleBounce; split_ifs <;> rfl

lemma wallBounce_dx (b : Ball ℚ) :
    (wallBounce b).dx = if b.x ≤ 0 ∨ b.x ≥ CANVAS_WIDTH - b.width then -b.dx else b.dx := by
  simp only [wallBounce]; split_ifs <;> rfl

lemma wallBounce_dy (b : Ball ℚ) :
    (wallBounce b).dy = if b.y ≤ 0 then -b.dy else b.dy := by
  simp only [wallBounce]
  split_ifs <;> rfl

lemma ballAfterWalls_toRect (s : GState) :
    (ballAfterWalls s).toRect = (moveBall s.ball).toRect := by
  unfold ballAfterWalls; simp

lemma ballAfterPaddle_toRect (s : GState) :
    (ballAfterPaddle s).toRect = (moveBall s.ball).toRect := by
  unfold ballAfterPaddle; simp [ballAfterWalls_toRect]

lemma ballAfterPaddle_speed (s : GState) :
    (ballAfterPaddle s).speed = s.ball.speed := by
  unfold ballAfterPaddle ballAfterWalls; simp

/-- Closed form of the `bricks.forEach` fold: it maps `smash` over the
bricks, negates `dy` once per hit and adds 10 to `newScore` per hit. -/
lemma brickFold_spec (r : Rect ℚ) (l : List (Brick ℚ)) (a : BrickAcc) :
    l.foldl (brickVisit r) a =
      { bricks := a.bricks ++ l.map (smash r),
        dy := (-1 : ℚ) ^ hits r l * a.dy,
        newScore := a.newScore + 10 * (hits r l : ℤ) } := by
  induction l generalizing a with
  | nil =>
      cases a
      simp [hits]
  | cons b t ih =>
      rw [List.foldl_cons, ih]
      have hcount : hits r (b :: t) =
          hits r t + if b.destroyed = false ∧ checkCollision r b.toRect then 1 else 0 := by
        simp [hits, List.countP_cons]
      by_cases h : b.destroyed = false ∧ checkCollision r b.toRect
      · simp only [brickVisit, if_pos h, hcount, if_pos h, List.map_cons,
          BrickAcc.mk.injEq, smash]
        refine ⟨by simp, ?_, ?_⟩
        · rw [pow_succ]; ring
        · push_cast; ring
      · have hsm : smash r b = b := by unfold smash; rw [if_neg h]
        simp only [brickVisit, if_neg h, hcount, if_neg h, List.map_cons, hsm,
          BrickAcc.mk.injEq]
        refine ⟨by simp, by ring, by push_cast; ring⟩

lemma brickPhase_bricks (r : Rect ℚ) (dy : ℚ) (l : List (Brick ℚ)) :
    (brickPhase r dy l).bricks = l.map (smash r) := by
  unfold brickPhase; rw [brickFold_spec]; simp

lemma brickPhase_dy (r : Rect ℚ) (dy : ℚ) (l : List (Brick ℚ)) :
    (brickPhase r dy l).dy = (-1 : ℚ) ^ hits r l * dy := by
  unfold brickPhase; rw [brickFold_spec]

lemma brickPhase_newScore (r : Rect ℚ) (dy : ℚ) (l : List (Brick ℚ)) :
    (brickPhase r dy l).newScore = 10 * (hits r l : ℤ) := by
  unfold brickPhase; rw [brickFold_spec]; simp

lemma smash_destroyed_of_destroyed (r : Rect ℚ) (b : Brick ℚ)
    (hb : b.destroyed = true) : (smash r b).destroyed = true := by
  unfold smash
  split_ifs with h
  · rfl
  · exact hb

lemma countDestroyed_smash (r : Rect ℚ) (l : List (Brick ℚ)) :
    countDestroyed (l.map (smash r)) = countDestroyed l + hits r l := by
  induction l with
  | nil => simp [countDestroyed, hits]
  | cons b t ih =>
      by_cases h : b.destroyed = false ∧ checkCollision r b.toRect
      · have hsm : smash r b = { b with destroyed := true } := by
          unfold smash; rw [if_pos h]
        have hc : hits r (b :: t) = hits r t + 1 := by
          simp [hits, List.countP_cons, h]
        have hd : countDestroyed (b :: t) = countDestroyed t := by
          simp [countDestroyed, List.countP_cons, h.1]
        have hd2 : countDestroyed (List.map (smash r) (b :: t)) =
            countDestroyed (List.map (smash r) t) + 1 := by
          simp [countDestroyed, List.countP_cons, hsm]
        rw [hd2, hd, hc, ih]
        omega
      · have hsm : smash r b = b := by unfold smash; rw [if_neg h]
        have hc : hits r (b :: t) = hits r t := by
          simp [hits, List.countP_cons, h]
        have hd2 : countDestroyed (List.map (smash r) (b :: t)) =
            countDestroyed (List.map (smash r) t) + countDestroyed [b] := by
          simp [countDestroyed, List.countP_cons, hsm]
        have hd : countDestroyed (b :: t) = countDestroyed t + countDestroyed [b] := by
          simp [countDestroyed, List.countP_cons]
        rw [hd2, hd, hc, ih]
        omega

lemma updateGame_bricks (s : GState) :
    (updateGame s).bricks = s.bricks.map (smash (moveBall s.ball).toRect) := by
  unfold updateGame
  simp only [brickPhase_bricks, ballAfterPaddle_toRect]

lemma updateGame_ball_dy (s : GState) :
    (updateGame s).ball.dy =
      (-1 : ℚ) ^ hits (moveBall s.ball).toRect s.bricks * (ballAfterPaddle s).dy := by
  unfold updateGame
  simp only [brickPhase_dy, ballAfterPaddle_toRect]

lemma updateGame_ball_dx (s : GState) :
    (updateGame s).ball.dx = (ballAfterPaddle s).dx := rfl

lemma updateGame_ball_x (s : GState) :
    (updateGame s).ball.x = s.ball.x + s.ball.dx := by
  unfold updateGame
  show (ballAfterPaddle s).x = _
  have h := congrArg Rect.x (ballAfterPaddle_toRect s)
  simpa using h

lemma updateGame_ball_y (s : GState) :
    (updateGame s).ball.y = s.ball.y + s.ball.dy := by
  unfold updateGame
  show (ballAfterPaddle s).y = _
  have h := congrArg Rect.y (ballAfterPaddle_toRect s)
  simpa using h

lemma updateGame_score (s : GState) :
    (updateGame s).score = s.score + 10 * (hits (moveBall s.ball).toRect s.bricks : ℤ) := by
  unfold updateGame
  simp only [brickPhase_newScore, ballAfterPaddle_toRect]
  split_ifs with h
  · rfl
  · have : hits (moveBall s.ball).toRect s.bricks = 0 := by omega
    simp [this]

lemma updateGame_status (s : GState) :
    (updateGame s).status =
      if (updateGame s).ball.y > CANVAS_HEIGHT then GameStatus.gameOver
      else if (updateGame s).bricks.all (fun b => b.destroyed) then GameStatus.won
      else GameStatus.playing := rfl

end P

namespace R

lemma wallBounceR_speed (W : ℝ) (b : Ball ℝ) : (wallBounce W b).speed = b.speed := by
  simp only [wallBounce]; split_ifs <;> rfl

lemma wallBounceR_toRect (W : ℝ) (b : Ball ℝ) : (wallBounce W b).toRect = b.toRect := by
  simp only [wallBounce]; split_ifs <;> rfl

lemma paddleBounceR_speed (p : Rect ℝ) (b : Ball ℝ) :
    (paddleBounce p b).speed = b.speed := by
  unfold paddleBounce; split_ifs <;> rfl

lemma paddleBounceR_toRect (p : Rect ℝ) (b : Ball ℝ) :
    (paddleBounce p b).toRect = b.toRect := by
  unfold paddleBounce; split_ifs <;> rfl

lemma ballAfterPaddleR_speed (W : ℝ) (s : GState) :
    (ballAfterPaddle W s).speed = s.ball.speed := by
  unfold ballAfterPaddle ballAfterWalls
  rw [paddleBounceR_speed, wallBounceR_speed, moveBall_speed]

lemma ballAfterPaddleR_toRect (W : ℝ) (s : GState) :
    (ballAfterPaddle W s).toRect = (moveBall s.ball).toRect := by
  unfold ballAfterPaddle ballAfterWalls
  rw [paddleBounceR_toRect, wallBounceR_toRect]

/-- Closed form of the `bricks.forEach` fold of the responsive variant. -/
lemma brickFoldR_spec (r : Rect ℝ) (l : List (Brick ℝ)) (a : BrickAcc) :
    l.foldl (brickVisit r) a =
      { bricks := a.bricks ++ l.map (smash r),
        dy := (-1 : ℝ) ^ hits r l * a.dy,
        newScore := a.newScore + 10 * (hits r l : ℤ),
        total := a.total + hits r l } := by
  induction l generalizing a with
  | nil =>
      cases a
      simp [hits]
  | cons b t ih =>
      rw [List.foldl_cons, ih]
      have hcount : hits r (b :: t) =
          hits r t + if b.destroyed = false ∧ checkCollision r b.toRect then 1 else 0 := by
        simp [hits, List.countP_cons]
      by_cases h : b.destroyed = false ∧ checkCollision r b.toRect
      · simp only [brickVisit, if_pos h, hcount, if_pos h, List.map_cons,
          BrickAcc.mk.injEq, smash]
        refine ⟨by simp, ?_, ?_, by omega⟩
        · rw [pow_succ]; ring
        · push_cast; ring
      · have hsm : smash r b = b := by unfold smash; rw [if_neg h]
        simp only [brickVisit, if_neg h, hcount, if_neg h, List.map_cons, hsm,
          BrickAcc.mk.injEq]
        refine ⟨by simp, by ring, by push_cast; ring, by omega⟩

lemma brickPhaseR_bricks (r : Rect ℝ) (dy : ℝ) (n : ℕ) (l : List (Brick ℝ)) :
    (brickPhase r dy n l).bricks = l.map (smash r) := by
  unfold brickPhase; rw [brickFoldR_spec]; simp

lemma brickPhaseR_newScore (r : Rect ℝ) (dy : ℝ) (n : ℕ) (l : List (Brick ℝ)) :
    (brickPhase r dy n l).newScore = 10 * (hits r l : ℤ) := by
  unfold brickPhase; rw [brickFoldR_spec]; simp

lemma brickPhase_total (r : Rect ℝ) (dy : ℝ) (n : ℕ) (l : List (Brick ℝ)) :
    (brickPhase r dy n l).total = n + hits r l := by
  unfold brickPhase; rw [brickFoldR_spec]

lemma updateGameR_bricks (W H : ℝ) (s : GState) :
    (updateGame W H s).bricks = s.bricks.map (smash (moveBall s.ball).toRect) := by
  unfold updateGame
  simp only [brickPhaseR_bricks, ballAfterPaddleR_toRect]

lemma updateGame_total (W H : ℝ) (s : GState) :
    (updateGame W H s).totalBricksDestroyed =
      s.totalBricksDestroyed + hits (moveBall s.ball).toRect s.bricks := by
  unfold updateGame
  simp only [brickPhase_total, ballAfterPaddleR_toRect]

lemma updateGame_speed (W H : ℝ) (s : GState) :
    (updateGame W H s).ball.speed =
      if 0 < hits (moveBall s.ball).toRect s.bricks then
        min (INITIAL_BALL_SPEED +
              ((s.totalBricksDestroyed + hits (moveBall s.ball).toRect s.bricks : ℕ) : ℝ) *
                SPEED_INCREASE_FACTOR)
          MAX_BALL_SPEED
      else s.ball.speed := by
  unfold updateGame
  simp only [brickPhaseR_newScore, brickPhase_total, ballAfterPaddleR_toRect]
  by_cases h : 0 < hits (moveBall s.ball).toRect s.bricks
  · have h10 : (0:ℤ) < 10 * (hits (moveBall s.ball).toRect s.bricks : ℤ) := by
      have := h; omega
    rw [if_pos h, if_pos h10]
  · have h0 : hits (moveBall s.ball).toRect s.bricks = 0 := by omega
    rw [if_neg h]
    rw [h0]
    norm_num
    exact ballAfterPaddleR_speed W s

lemma smashR_destroyed_of_destroyed (r : Rect ℝ) (b : Brick ℝ)
    (hb : b.destroyed = true) : (smash r b).destroyed = true := by
  unfold smash
  split_ifs with h
  · rfl
  · exact hb

lemma speed_formula_bounds (n : ℕ) :
    2 ≤ min (INITIAL_BALL_SPEED + (n : ℝ) * SPEED_INCREASE_FACTOR) MAX_BALL_SPEED ∧
    min (INITIAL_BALL_SPEED + (n : ℝ) * SPEED_INCREASE_FACTOR) MAX_BALL_SPEED ≤ 8 := by
  constructor
  · apply le_min
    · have h0 : (0:ℝ) ≤ (n:ℝ) := Nat.cast_nonneg _
      simp only [INITIAL_BALL_SPEED, SPEED_INCREASE_FACTOR]
      nlinarith
    · norm_num [INITIAL_BALL_SPEED, MAX_BALL_SPEED]
  · have h := min_le_right (INITIAL_BALL_SPEED + (n : ℝ) * SPEED_INCREASE_FACTOR) MAX_BALL_SPEED
    simp only [MAX_BALL_SPEED] at h
    exact h

lemma speed_formula_mono {n m : ℕ} (h : n ≤ m) :
    min (INITIAL_BALL_SPEED + (n : ℝ) * SPEED_INCREASE_FACTOR) MAX_BALL_SPEED ≤
      min (INITIAL_BALL_SPEED + (m : ℝ) * SPEED_INCREASE_FACTOR) MAX_BALL_SPEED := by
  apply min_le_min _ le_rfl
  have hle : (n:ℝ) ≤ (m:ℝ) := by exact_mod_cast h
  have hf : (0:ℝ) ≤ SPEED_INCREASE_FACTOR := by norm_num [SPEED_INCREASE_FACTOR]
  nlinarith

end R

/-! The claims. -/

/-- C1: `checkCollision(rect1, rect2)` holds if and only if the
rectangles strictly overlap, i.e. `rect1.x < rect2.x + rect2.width`,
`rect1.x + rect1.width > rect2.x`, `rect1.y < rect2.y + rect2.height`
and `rect1.y + rect1.height > rect2.y`; in particular rectangles that
merely touch along an edge (equality in any of the four comparisons)
do not collide. -/
theorem spec_C1 (rect1 rect2 : Rect ℚ) :
    (checkCollision rect1 rect2 ↔
      (rect1.x < rect2.x + rect2.width ∧ rect1.x + rect1.width > rect2.x ∧
       rect1.y < rect2.y + rect2.height ∧ rect1.y + rect1.height > rect2.y))
  ∧ (rect1.x + rect1.width = rect2.x → ¬ checkCollision rect1 rect2)
  ∧ (rect2.x + rect2.width = rect1.x → ¬ checkCollision rect1 rect2)
  ∧ (rect1.y + rect1.height = rect2.y → ¬ checkCollision rect1 rect2)
  ∧ (rect2.y + rect2.height = rect1.y → ¬ checkCollision rect1 rect2) := by
  refine ⟨Iff.rfl, ?_, ?_, ?_, ?_⟩ <;>
    · intro heq hcol
      unfold checkCollision at hcol
      obtain ⟨h1, h2, h3, h4⟩ := hcol
      linarith

/-- Witness for C1: two 10 x 10 squares sharing a vertical edge do not
collide. -/
theorem spec_C1_witness :
    ¬ checkCollision (⟨0, 0, 10, 10⟩ : Rect ℚ) ⟨10, 0, 10, 10⟩ :=
  (spec_C1 ⟨0, 0, 10, 10⟩ ⟨10, 0, 10, 10⟩).2.1 (by norm_num)

/-- C2: from a playing state, one step of the loop ends in exactly one
of the three outcomes: if the moved ball's y exceeds `CANVAS_HEIGHT`
the state becomes `'gameOver'` (taking precedence over the win check);
otherwise, if every brick is destroyed after this frame's brick
collisions, it becomes `'won'`; otherwise it stays `'playing'`. -/
theorem spec_C2 (s : P.GState) (h : s.status = GameStatus.playing) :
    ((P.gameLoopTick s).ball.y > P.CANVAS_HEIGHT →
        (P.gameLoopTick s).status = GameStatus.gameOver)
  ∧ (¬ (P.gameLoopTick s).ball.y > P.CANVAS_HEIGHT →
        (((P.gameLoopTick s).bricks.all (fun b => b.destroyed)) = true →
            (P.gameLoopTick s).status = GameStatus.won)
      ∧ (((P.gameLoopTick s).bricks.all (fun b => b.destroyed)) = false →
            (P.gameLoopTick s).status = GameStatus.playing)) := by
  have ht : P.gameLoopTick s = P.updateGame s := by
    unfold P.gameLoopTick; rw [if_pos h]
  rw [ht, P.updateGame_status]
  by_cases hy : (P.updateGame s).ball.y > P.CANVAS_HEIGHT
  · rw [if_pos hy]
    exact ⟨fun _ => rfl, fun hny => absurd hy hny⟩
  · rw [if_neg hy]
    refine ⟨fun hyy => absurd hyy hy, fun _ => ⟨fun hall => ?_, fun hfall => ?_⟩⟩
    · rw [if_pos hall]
    · rw [if_neg (by simp [hfall])]

/-- Witness for C2: a ball falling past the bottom edge ends the game. -/
theorem spec_C2_witness :
    (P.gameLoopTick P.w2state).status = GameStatus.gameOver :=
  (spec_C2 P.w2state rfl).1 (by
    have ht : P.gameLoopTick P.w2state = P.updateGame P.w2state := rfl
    rw [ht, P.updateGame_ball_y]
    norm_num [P.w2state, P.CANVAS_HEIGHT])

/-- C3: in each update step the score grows by exactly 10 times the
number of bricks newly destroyed in that step (so it is unchanged when
none is destroyed, never decreases, and stays a non-negative multiple
of 10), and `resetGame` sets it to 0. -/
theorem spec_C3 (s : P.GState) (coin : Bool) :
    ((P.updateGame s).score =
        s.score +
          10 * ((countDestroyed (P.updateGame s).bricks - countDestroyed s.bricks : ℕ) : ℤ))
  ∧ (countDestroyed (P.updateGame s).bricks = countDestroyed s.bricks →
        (P.updateGame s).score = s.score)
  ∧ s.score ≤ (P.updateGame s).score
  ∧ (0 ≤ s.score → 0 ≤ (P.updateGame s).score)
  ∧ ((10 : ℤ) ∣ s.score → (10 : ℤ) ∣ (P.updateGame s).score)
  ∧ (P.resetGame coin s).score = 0 := by
  have hb := P.updateGame_bricks s
  have hs := P.updateGame_score s
  have hc : countDestroyed (P.updateGame s).bricks =
      countDestroyed s.bricks + P.hits (moveBall s.ball).toRect s.bricks := by
    rw [hb, P.countDestroyed_smash]
  have hnn : (0:ℤ) ≤ 10 * (P.hits (moveBall s.ball).toRect s.bricks : ℤ) := by positivity
  refine ⟨?_, ?_, ?_, ?_, ?_, rfl⟩
  · rw [hs, hc]
    have hk : countDestroyed s.bricks + P.hits (moveBall s.ball).toRect s.bricks -
        countDestroyed s.bricks = P.hits (moveBall s.ball).toRect s.bricks := by omega
    rw [hk]
  · intro h0
    rw [hc] at h0
    have hz : P.hits (moveBall s.ball).toRect s.bricks = 0 := by omega
    rw [hs, hz]
    simp
  · rw [hs]; linarith
  · intro hpos; rw [hs]; linarith
  · intro hdvd
    rw [hs]
    exact dvd_add hdvd (dvd_mul_right 10 _)

/-- Witness for C3: destroying one brick adds 10 to the score, which
stays non-negative. -/
theorem spec_C3_witness :
    (P.updateGame P.w3state).score = 10 ∧ (0:ℤ) ≤ (P.updateGame P.w3state).score := by
  have h := spec_C3 P.w3state true
  have hh : P.hits (moveBall P.w3state.ball).toRect P.w3state.bricks = 1 := by
    norm_num [P.hits, P.w3state, moveBall, checkCollision,
      List.countP_cons, List.countP_nil]
  have hsc : (P.updateGame P.w3state).score = 10 := by
    rw [P.updateGame_score, hh]
    norm_num [P.w3state]
  exact ⟨hsc, h.2.2.2.1 (by norm_num [P.w3state])⟩

/-- C4 counterexample: in the state `c4state` the moved ball overlaps
the paddle with `dy > 0`, yet after the step `dy` is positive (the
ball moves downward): the deflected ball also overlaps a live brick,
and the brick loop negates `dy` again. -/
theorem spec_C4_counterexample :
    checkCollision (moveBall P.c4state.ball).toRect (P.newPaddle P.c4state)
  ∧ 0 < (P.ballAfterWalls P.c4state).dy
  ∧ 0 < (P.updateGame P.c4state).ball.dy := by
  have hw : P.ballAfterWalls P.c4state = moveBall P.c4state.ball := by
    unfold P.ballAfterWalls P.wallBounce
    norm_num [moveBall, P.c4state, P.CANVAS_WIDTH]
  have hpad : P.newPaddle P.c4state = P.c4state.paddle := by
    unfold P.newPaddle P.movePaddle
    norm_num [P.c4state]
  have hcol : checkCollision (moveBall P.c4state.ball).toRect (P.newPaddle P.c4state) := by
    rw [hpad]
    norm_num [checkCollision, moveBall, P.c4state]
  have hdy : (P.ballAfterWalls P.c4state).dy = 1 := by
    rw [hw]; norm_num [moveBall, P.c4state]
  have hcolw : checkCollision (P.ballAfterWalls P.c4state).toRect (P.newPaddle P.c4state) := by
    rw [hw]; exact hcol
  have hbp : (P.ballAfterPaddle P.c4state).dy = -1 := by
    unfold P.ballAfterPaddle P.paddleBounce
    rw [if_pos ⟨hcolw, by rw [hdy]; norm_num⟩]
    rw [hdy]
    norm_num
  have hh : P.hits (moveBall P.c4state.ball).toRect P.c4state.bricks = 1 := by
    norm_num [P.hits, P.c4state, moveBall, checkCollision,
      List.countP_cons, List.countP_nil]
  refine ⟨hcol, by rw [hdy]; norm_num, ?_⟩
  rw [P.updateGame_ball_dy, hh, hbp]
  norm_num

/-- C4 (amended): if the moved ball (after wall reflection) overlaps
the paddle, its vertical velocity is strictly positive at that check,
its speed is positive, and the deflected ball overlaps no remaining
brick, then after the step the ball moves upward with
`dy = -|dy|` and `dx = ball.speed * (hitPos - 0.5) * 2` for
`hitPos = (ball.x + ball.width/2 - paddle.x) / paddle.width`: left of
centre deflects leftward, right of centre rightward.  (Without the
no-brick proviso the claim fails: each brick hit negates `dy` again,
see the counterexample.) -/
theorem spec_C4 (s : P.GState)
    (hc : checkCollision (P.ballAfterWalls s).toRect (P.newPaddle s))
    (hdy : 0 < (P.ballAfterWalls s).dy)
    (hsp : 0 < s.ball.speed)
    (hnb : ∀ b ∈ s.bricks, b.destroyed = false →
        ¬ checkCollision (moveBall s.ball).toRect b.toRect) :
    ((P.updateGame s).ball.dy = -|(P.ballAfterWalls s).dy|)
  ∧ (P.updateGame s).ball.dy < 0
  ∧ (P.updateGame s).ball.dx =
      s.ball.speed *
        (((P.ballAfterWalls s).x + (P.ballAfterWalls s).width / 2 - (P.newPaddle s).x) /
            (P.newPaddle s).width - 1/2) * 2
  ∧ (((P.ballAfterWalls s).x + (P.ballAfterWalls s).width / 2 - (P.newPaddle s).x) /
        (P.newPaddle s).width < 1/2 → (P.updateGame s).ball.dx < 0)
  ∧ (1/2 < ((P.ballAfterWalls s).x + (P.ballAfterWalls s).width / 2 - (P.newPaddle s).x) /
        (P.newPaddle s).width → 0 < (P.updateGame s).ball.dx) := by
  have hzero : P.hits (moveBall s.ball).toRect s.bricks = 0 := by
    unfold P.hits
    rw [List.countP_eq_zero]
    intro b hb
    simp only [decide_eq_true_eq]
    rintro ⟨hd, hcl⟩
    exact hnb b hb hd hcl
  have hspeq : (P.ballAfterWalls s).speed = s.ball.speed := by
    unfold P.ballAfterWalls; simp
  have hbp : P.ballAfterPaddle s =
      { P.ballAfterWalls s with
          dx := (P.ballAfterWalls s).speed *
            (((P.ballAfterWalls s).x + (P.ballAfterWalls s).width / 2 - (P.newPaddle s).x) /
                (P.newPaddle s).width - 1/2) * 2,
          dy := -|(P.ballAfterWalls s).dy| } := by
    unfold P.ballAfterPaddle P.paddleBounce
    rw [if_pos ⟨hc, hdy⟩]
  have hdy' : (P.updateGame s).ball.dy = -|(P.ballAfterWalls s).dy| := by
    rw [P.updateGame_ball_dy, hzero, hbp]
    norm_num
  have habs : 0 < |(P.ballAfterWalls s).dy| := abs_pos.mpr (ne_of_gt hdy)
  have hdx' : (P.updateGame s).ball.dx =
      s.ball.speed *
        (((P.ballAfterWalls s).x + (P.ballAfterWalls s).width / 2 - (P.newPaddle s).x) /
            (P.newPaddle s).width - 1/2) * 2 := by
    rw [P.updateGame_ball_dx, hbp]
    show (P.ballAfterWalls s).speed * _ * 2 = _
    rw [hspeq]
  refine ⟨hdy', by rw [hdy']; linarith, hdx', ?_, ?_⟩
  · intro hlt
    rw [hdx']
    have hneg := mul_neg_of_pos_of_neg hsp
      (by linarith :
        ((P.ballAfterWalls s).x + (P.ballAfterWalls s).width / 2 - (P.newPaddle s).x) /
          (P.newPaddle s).width - 1/2 < 0)
    linarith
  · intro hgt
    rw [hdx']
    have hpos := mul_pos hsp
      (by linarith :
        (0:ℚ) <
          ((P.ballAfterWalls s).x + (P.ballAfterWalls s).width / 2 - (P.newPaddle s).x) /
            (P.newPaddle s).width - 1/2)
    linarith

/-- Witness for C4: a ball striking the paddle at `hitPos = 0.15` is
sent upward and to the left. -/
theorem spec_C4_witness :
    (P.updateGame P.w4state).ball.dy < 0 ∧ (P.updateGame P.w4state).ball.dx < 0 := by
  have hw : P.ballAfterWalls P.w4state = moveBall P.w4state.ball := by
    unfold P.ballAfterWalls P.wallBounce
    norm_num [moveBall, P.w4state, P.CANVAS_WIDTH]
  have hpad : P.newPaddle P.w4state = P.w4state.paddle := by
    unfold P.newPaddle P.movePaddle
    norm_num [P.w4state]
  have h := spec_C4 P.w4state
    (by rw [hw, hpad]; norm_num [checkCollision, moveBall, P.w4state])
    (by rw [hw]; norm_num [moveBall, P.w4state])
    (by norm_num [P.w4state])
    (by simp [P.w4state])
  exact ⟨h.2.1, h.2.2.2.1 (by rw [hw, hpad]; norm_num [moveBall, P.w4state])⟩

/-- C5: each step first advances the ball's position by exactly its
velocity vector; then `dx` is negated exactly when the new
`x <= 0` or `x >= CANVAS_WIDTH - ball.width`, and `dy` is negated
exactly when the new `y <= 0` — the ball reflects off the left, right
and top walls but not the bottom. -/
theorem spec_C5 (s : P.GState) :
    (moveBall s.ball).x = s.ball.x + s.ball.dx
  ∧ (moveBall s.ball).y = s.ball.y + s.ball.dy
  ∧ (P.updateGame s).ball.x = s.ball.x + s.ball.dx
  ∧ (P.updateGame s).ball.y = s.ball.y + s.ball.dy
  ∧ (P.wallBounce (moveBall s.ball)).dx =
      (if (moveBall s.ball).x ≤ 0 ∨
          (moveBall s.ball).x ≥ P.CANVAS_WIDTH - (moveBall s.ball).width
       then -(moveBall s.ball).dx else (moveBall s.ball).dx)
  ∧ (P.wallBounce (moveBall s.ball)).dy =
      (if (moveBall s.ball).y ≤ 0 then -(moveBall s.ball).dy else (moveBall s.ball).dy)
  ∧ (s.ball.dx ≠ 0 →
      ((P.wallBounce (moveBall s.ball)).dx = -(moveBall s.ball).dx ↔
        ((moveBall s.ball).x ≤ 0 ∨
          (moveBall s.ball).x ≥ P.CANVAS_WIDTH - (moveBall s.ball).width)))
  ∧ (s.ball.dy ≠ 0 →
      ((P.wallBounce (moveBall s.ball)).dy = -(moveBall s.ball).dy ↔
        (moveBall s.ball).y ≤ 0)) := by
  refine ⟨rfl, rfl, P.updateGame_ball_x s, P.updateGame_ball_y s,
    P.wallBounce_dx _, P.wallBounce_dy _, ?_, ?_⟩
  · intro hdx
    rw [P.wallBounce_dx]
    by_cases hcond : (moveBall s.ball).x ≤ 0 ∨
        (moveBall s.ball).x ≥ P.CANVAS_WIDTH - (moveBall s.ball).width
    · rw [if_pos hcond]
      exact ⟨fun _ => hcond, fun _ => rfl⟩
    · rw [if_neg hcond]
      constructor
      · intro heq
        exfalso
        rw [moveBall_dx] at heq
        exact hdx (by linarith)
      · intro hcc
        exact absurd hcc hcond
  · intro hdy
    rw [P.wallBounce_dy]
    by_cases hcond : (moveBall s.ball).y ≤ 0
    · rw [if_pos hcond]
      exact ⟨fun _ => hcond, fun _ => rfl⟩
    · rw [if_neg hcond]
      constructor
      · intro heq
        exfalso
        rw [moveBall_dy] at heq
        exact hdy (by linarith)
      · intro hcc
        exact absurd hcc hcond

/-- Witness for C5: a ball crossing the left wall has `dx` negated, and
the characterization is exercised at a concrete state. -/
theorem spec_C5_witness :
    (P.wallBounce (moveBall P.w5state.ball)).dx = -(moveBall P.w5state.ball).dx ↔
      ((moveBall P.w5state.ball).x ≤ 0 ∨
        (moveBall P.w5state.ball).x ≥ P.CANVAS_WIDTH - (moveBall P.w5state.ball).width) :=
  (spec_C5 P.w5state).2.2.2.2.2.2.1 (by norm_num [P.w5state])

/-- C6 counterexample: in the state `c6state` the moved ball lands
exactly on the wall line x = 0 and the code negates `dx`, although the
ball does not strictly overlap the wall strip whose right edge is that
line — so wall hits are not decided by the strict bounding-box overlap
test. -/
theorem spec_C6_counterexample :
    (P.updateGame P.c6state).ball.dx = 3
  ∧ (moveBall P.c6state.ball).x = P.c6wall.x + P.c6wall.width
  ∧ ¬ checkCollision (moveBall P.c6state.ball).toRect P.c6wall := by
  have hdx : (P.ballAfterWalls P.c6state).dx = 3 := by
    unfold P.ballAfterWalls
    rw [P.wallBounce_dx]
    norm_num [moveBall, P.c6state, P.CANVAS_WIDTH]
  have hdy0 : (P.ballAfterWalls P.c6state).dy = 0 := by
    unfold P.ballAfterWalls
    rw [P.wallBounce_dy]
    norm_num [moveBall, P.c6state]
  have hpb : P.ballAfterPaddle P.c6state = P.ballAfterWalls P.c6state := by
    unfold P.ballAfterPaddle P.paddleBounce
    rw [if_neg]
    rintro ⟨-, hgt⟩
    rw [hdy0] at hgt
    exact lt_irrefl 0 hgt
  refine ⟨?_, ?_, ?_⟩
  · rw [P.updateGame_ball_dx, hpb, hdx]
  · norm_num [moveBall, P.c6state, P.c6wall]
  · norm_num [checkCollision, moveBall, P.c6state, P.c6wall]

/-- C6 (amended): brick destruction and paddle deflection are decided
by the strict bounding-box overlap test (`checkCollision` on the moved
ball), but ball-versus-wall hits are decided by non-strict coordinate
threshold comparisons (`x <= 0`, `x >= CANVAS_WIDTH - width`,
`y <= 0`): a ball exactly touching the wall line still bounces even
though it strictly overlaps no wall rectangle. -/
theorem spec_C6 (s : P.GState) :
    (∀ i : ℕ, ∀ b b' : Brick ℚ,
        s.bricks[i]? = some b → (P.updateGame s).bricks[i]? = some b' →
        b.destroyed = false →
        (b'.destroyed = true ↔ checkCollision (moveBall s.ball).toRect b.toRect))
  ∧ (checkCollision (P.ballAfterWalls s).toRect (P.newPaddle s) ∧ 0 < (P.ballAfterWalls s).dy →
        P.ballAfterPaddle s =
          { P.ballAfterWalls s with
              dx := (P.ballAfterWalls s).speed *
                (((P.ballAfterWalls s).x + (P.ballAfterWalls s).width / 2 -
                    (P.newPaddle s).x) / (P.newPaddle s).width - 1/2) * 2,
              dy := -|(P.ballAfterWalls s).dy| })
  ∧ (¬ (checkCollision (P.ballAfterWalls s).toRect (P.newPaddle s) ∧
          0 < (P.ballAfterWalls s).dy) →
        P.ballAfterPaddle s = P.ballAfterWalls s)
  ∧ ((P.ballAfterWalls s).dx =
      if (moveBall s.ball).x ≤ 0 ∨
          (moveBall s.ball).x ≥ P.CANVAS_WIDTH - (moveBall s.ball).width
      then -(moveBall s.ball).dx else (moveBall s.ball).dx)
  ∧ ((P.ballAfterWalls s).dy =
      if (moveBall s.ball).y ≤ 0 then -(moveBall s.ball).dy else (moveBall s.ball).dy) := by
  refine ⟨?_, ?_, ?_, ?_, ?_⟩
  · intro i b b' hb hb' hd
    rw [P.updateGame_bricks, List.getElem?_map, hb] at hb'
    have hb'' : b' = P.smash (moveBall s.ball).toRect b := by
      simpa using hb'.symm
    subst hb''
    unfold P.smash
    by_cases hcol : checkCollision (moveBall s.ball).toRect b.toRect
    · rw [if_pos ⟨hd, hcol⟩]
      exact ⟨fun _ => hcol, fun _ => rfl⟩
    · rw [if_neg (by rintro ⟨-, hc⟩; exact hcol hc)]
      rw [hd]
      exact ⟨fun h => absurd h (by norm_num), fun h => absurd h hcol⟩
  · intro h
    unfold P.ballAfterPaddle P.paddleBounce
    rw [if_pos h]
  · intro h
    unfold P.ballAfterPaddle P.paddleBounce
    rw [if_neg h]
  · unfold P.ballAfterWalls
    rw [P.wallBounce_dx]
  · unfold P.ballAfterWalls
    rw [P.wallBounce_dy]

/-- Witness for C6: a ball landing on the paddle is deflected, per the
paddle clause of the hit-detection theorem. -/
theorem spec_C6_witness :
    (P.ballAfterPaddle P.w6state).dy = -|(P.ballAfterWalls P.w6state).dy| := by
  have hw : P.ballAfterWalls P.w6state = moveBall P.w6state.ball := by
    unfold P.ballAfterWalls P.wallBounce
    norm_num [moveBall, P.w6state, P.CANVAS_WIDTH]
  have hpad : P.newPaddle P.w6state = P.w6state.paddle := by
    unfold P.newPaddle P.movePaddle
    norm_num [P.w6state]
  have h := (spec_C6 P.w6state).2.1
    ⟨by rw [hw, hpad]; norm_num [checkCollision, moveBall, P.w6state],
     by rw [hw]; norm_num [moveBall, P.w6state]⟩
  rw [h]

/-- C7: in both variants, keydown of `'ArrowLeft'`/`'a'` sets the left
movement flag and keyup clears it; symmetrically `'ArrowRight'`/`'d'`
for the right flag; a space keydown taken in `'playing'` yields
`'paused'` and one taken in `'paused'` yields `'playing'`; and no
other key changes the movement flags. -/
theorem spec_C7 (sP : P.GState) (sR : R.GState) (W H : ℝ) (coin : Bool) :
    ((P.handleKeyDown "ArrowLeft" sP).keysLeft = true
   ∧ (P.handleKeyDown "a" sP).keysLeft = true
   ∧ (P.handleKeyUp "ArrowLeft" sP).keysLeft = false
   ∧ (P.handleKeyUp "a" sP).keysLeft = false
   ∧ (P.handleKeyDown "ArrowRight" sP).keysRight = true
   ∧ (P.handleKeyDown "d" sP).keysRight = true
   ∧ (P.handleKeyUp "ArrowRight" sP).keysRight = false
   ∧ (P.handleKeyUp "d" sP).keysRight = false
   ∧ (sP.status = GameStatus.playing →
        (P.handleKeyDown " " sP).status = GameStatus.paused)
   ∧ (sP.status = GameStatus.paused →
        (P.handleKeyDown " " sP).status = GameStatus.playing)
   ∧ (∀ key : String, key ≠ "ArrowLeft" → key ≠ "a" → key ≠ "ArrowRight" → key ≠ "d" →
        ((P.handleKeyDown key sP).keysLeft = sP.keysLeft
       ∧ (P.handleKeyDown key sP).keysRight = sP.keysRight
       ∧ (P.handleKeyUp key sP).keysLeft = sP.keysLeft
       ∧ (P.handleKeyUp key sP).keysRight = sP.keysRight)))
  ∧ ((R.handleKeyDown "ArrowLeft" W H coin sR).keysLeft = true
   ∧ (R.handleKeyDown "a" W H coin sR).keysLeft = true
   ∧ (R.handleKeyUp "ArrowLeft" sR).keysLeft = false
   ∧ (R.handleKeyUp "a" sR).keysLeft = false
   ∧ (R.handleKeyDown "ArrowRight" W H coin sR).keysRight = true
   ∧ (R.handleKeyDown "d" W H coin sR).keysRight = true
   ∧ (R.handleKeyUp "ArrowRight" sR).keysRight = false
   ∧ (R.handleKeyUp "d" sR).keysRight = false
   ∧ (sR.status = GameStatus.playing →
        (R.handleKeyDown " " W H coin sR).status = GameStatus.paused)
   ∧ (sR.status = GameStatus.paused →
        (R.handleKeyDown " " W H coin sR).status = GameStatus.playing)
   ∧ (∀ key : String, key ≠ "ArrowLeft" → key ≠ "a" → key ≠ "ArrowRight" → key ≠ "d" →
        ((R.handleKeyDown key W H coin sR).keysLeft = sR.keysLeft
       ∧ (R.handleKeyDown key W H coin sR).keysRight = sR.keysRight
       ∧ (R.handleKeyUp key sR).keysLeft = sR.keysLeft
       ∧ (R.handleKeyUp key sR).keysRight = sR.keysRight))) := by
  constructor
  · refine ⟨by simp [P.handleKeyDown], by simp [P.handleKeyDown],
      by simp [P.handleKeyUp], by simp [P.handleKeyUp],
      by simp [P.handleKeyDown], by simp [P.handleKeyDown],
      by simp [P.handleKeyUp], by simp [P.handleKeyUp], ?_, ?_, ?_⟩
    · intro h; simp [P.handleKeyDown, h]
    · intro h; simp [P.handleKeyDown, h]
    · intro key h1 h2 h3 h4
      have hL : ¬(key = "ArrowLeft" ∨ key = "a") := by
        rintro (h | h)
        · exact h1 h
        · exact h2 h
      have hR' : ¬(key = "ArrowRight" ∨ key = "d") := by
        rintro (h | h)
        · exact h3 h
        · exact h4 h
      refine ⟨?_, ?_, ?_, ?_⟩
      · simp only [P.handleKeyDown]
        rw [if_neg hL, if_neg hR']
        split_ifs <;> rfl
      · simp only [P.handleKeyDown]
        rw [if_neg hL, if_neg hR']
        split_ifs <;> rfl
      · simp only [P.handleKeyUp]
        rw [if_neg hL, if_neg hR']
      · simp only [P.handleKeyUp]
        rw [if_neg hL, if_neg hR']
  · refine ⟨by simp [R.handleKeyDown], by simp [R.handleKeyDown],
      by simp [R.handleKeyUp], by simp [R.handleKeyUp],
      by simp [R.handleKeyDown], by simp [R.handleKeyDown],
      by simp [R.handleKeyUp], by simp [R.handleKeyUp], ?_, ?_, ?_⟩
    · intro h; simp [R.handleKeyDown, h]
    · intro h; simp [R.handleKeyDown, h]
    · intro key h1 h2 h3 h4
      have hL : ¬(key = "ArrowLeft" ∨ key = "a") := by
        rintro (h | h)
        · exact h1 h
        · exact h2 h
      have hR' : ¬(key = "ArrowRight" ∨ key = "d") := by
        rintro (h | h)
        · exact h3 h
        · exact h4 h
      refine ⟨?_, ?_, ?_, ?_⟩
      · simp only [R.handleKeyDown]
        rw [if_neg hL, if_neg hR']
        split_ifs <;> rfl
      · simp only [R.handleKeyDown]
        rw [if_neg hL, if_neg hR']
        split_ifs <;> rfl
      · simp only [R.handleKeyUp]
        rw [if_neg hL, if_neg hR']
      · simp only [R.handleKeyUp]
        rw [if_neg hL, if_neg hR']

/-- Witness for C7: a space keydown in a playing state pauses, and an
ArrowLeft keydown sets the left flag. -/
theorem spec_C7_witness :
    (P.handleKeyDown " " P.w7state).status = GameStatus.paused
  ∧ (R.handleKeyDown "ArrowLeft" 1200 800 true R.w7state).keysLeft = true := by
  have h := spec_C7 P.w7state R.w7state 1200 800 true
  exact ⟨h.1.2.2.2.2.2.2.2.2.1 rfl, h.2.1⟩

/-- C8: one tick of the game loop runs `updateGame` only in the
`'playing'` state; in `'paused'`, `'gameOver'` and `'won'` the whole
simulation state (ball, paddle, bricks, flags, score) is unchanged, in
both variants. -/
theorem spec_C8 (sP : P.GState) (sR : R.GState) (W H : ℝ)
    (hP : sP.status = GameStatus.paused ∨ sP.status = GameStatus.gameOver ∨
        sP.status = GameStatus.won)
    (hR : sR.status = GameStatus.paused ∨ sR.status = GameStatus.gameOver ∨
        sR.status = GameStatus.won) :
    P.gameLoopTick sP = sP ∧ R.gameLoopTick W H sR = sR := by
  constructor
  · have hne : sP.status ≠ GameStatus.playing := by
      rcases hP with h | h | h <;> rw [h] <;> simp
    unfold P.gameLoopTick
    rw [if_neg hne]
  · have hne : sR.status ≠ GameStatus.playing := by
      rcases hR with h | h | h <;> rw [h] <;> simp
    unfold R.gameLoopTick
    rw [if_neg hne]

/-- Witness for C8: a paused state is left untouched by a loop tick in
both variants. -/
theorem spec_C8_witness :
    P.gameLoopTick P.w8state = P.w8state ∧ R.gameLoopTick 1200 800 R.w8state = R.w8state :=
  spec_C8 P.w8state R.w8state 1200 800 (Or.inl rfl) (Or.inl rfl)

/-- C9: brick destruction is monotone during play: in both variants
`updateGame` never turns a brick's `destroyed` flag from `true` back to
`false`, the number of destroyed bricks never decreases over any
sequence of steps, and `initializeBricks` and `resetGame` produce
bricks that are all not destroyed. -/
theorem spec_C9 (sP : P.GState) (sR : R.GState) (W H : ℝ) (coin : Bool) :
    (∀ i : ℕ, ∀ b b' : Brick ℚ,
        sP.bricks[i]? = some b → (P.updateGame sP).bricks[i]? = some b' →
        b.destroyed = true → b'.destroyed = true)
  ∧ (∀ n : ℕ, countDestroyed sP.bricks ≤ countDestroyed ((P.updateGame)^[n] sP).bricks)
  ∧ (∀ i : ℕ, ∀ b b' : Brick ℝ,
        sR.bricks[i]? = some b → (R.updateGame W H sR).bricks[i]? = some b' →
        b.destroyed = true → b'.destroyed = true)
  ∧ (∀ b ∈ P.initialBricks, b.destroyed = false)
  ∧ (∀ b ∈ (P.resetGame coin sP).bricks, b.destroyed = false)
  ∧ (∀ b ∈ R.initialBricks W, b.destroyed = false)
  ∧ (∀ b ∈ (R.resetGame W H coin sR).bricks, b.destroyed = false) := by
  have hinitP : ∀ b ∈ P.initialBricks, b.destroyed = false := by
    intro b hb
    simp only [P.initialBricks, List.mem_flatMap, List.mem_map, List.mem_range] at hb
    obtain ⟨row, -, col, -, heq⟩ := hb
    rw [← heq]
  have hinitR : ∀ b ∈ R.initialBricks W, b.destroyed = false := by
    intro b hb
    simp only [R.initialBricks, List.mem_flatMap, List.mem_map, List.mem_range] at hb
    obtain ⟨row, -, col, -, heq⟩ := hb
    rw [← heq]
  have hstep : ∀ t : P.GState,
      countDestroyed t.bricks ≤ countDestroyed (P.updateGame t).bricks := by
    intro t
    rw [P.updateGame_bricks, P.countDestroyed_smash]
    omega
  refine ⟨?_, ?_, ?_, hinitP, hinitP, hinitR, hinitR⟩
  · intro i b b' hb hb' hd
    rw [P.updateGame_bricks, List.getElem?_map, hb] at hb'
    have hb'' : b' = P.smash (moveBall sP.ball).toRect b := by simpa using hb'.symm
    rw [hb'']
    exact P.smash_destroyed_of_destroyed _ _ hd
  · intro n
    induction n with
    | zero => simp
    | succ m ih =>
        calc countDestroyed sP.bricks
            ≤ countDestroyed ((P.updateGame)^[m] sP).bricks := ih
          _ ≤ countDestroyed (P.updateGame ((P.updateGame)^[m] sP)).bricks :=
              hstep ((P.updateGame)^[m] sP)
          _ = countDestroyed ((P.updateGame)^[m + 1] sP).bricks := by
              rw [Function.iterate_succ_apply']
  · intro i b b' hb hb' hd
    rw [R.updateGameR_bricks, List.getElem?_map, hb] at hb'
    have hb'' : b' = R.smash (moveBall sR.ball).toRect b := by simpa using hb'.symm
    rw [hb'']
    exact R.smashR_destroyed_of_destroyed _ _ hd

/-- Witness for C9: an already-destroyed brick is still destroyed
after a step. -/
theorem spec_C9_witness :
    ((P.updateGame P.w9state).bricks[0]?.map (fun b => b.destroyed)).getD false = true := by
  have hb' : (P.updateGame P.w9state).bricks[0]? =
      some (P.smash (moveBall P.w9state.ball).toRect ⟨⟨10, 10, 75, 20⟩, true⟩) := by
    rw [P.updateGame_bricks]
    rfl
  have hd := (spec_C9 P.w9state R.w9state 1200 800 true).1 0
    ⟨⟨10, 10, 75, 20⟩, true⟩ (P.smash (moveBall P.w9state.ball).toRect ⟨⟨10, 10, 75, 20⟩, true⟩)
    rfl hb' rfl
  rw [hb']
  simp [hd]

/-- C10: in the responsive variant the ball's speed is bounded and
non-decreasing during play: along the invariant
`speed = min(INITIAL_BALL_SPEED + totalBricksDestroyed * SPEED_INCREASE_FACTOR, MAX_BALL_SPEED)`
(which holds at the initial state and after `resetGame`, both of speed
`INITIAL_BALL_SPEED = 2`), every update step preserves the invariant,
never lowers the speed, and keeps it inside `[2, 8]`
(`MAX_BALL_SPEED = 8`). -/
theorem spec_C10 (W H : ℝ) (coin : Bool) (s : R.GState)
    (hs : s.ball.speed =
        min (R.INITIAL_BALL_SPEED +
              (s.totalBricksDestroyed : ℝ) * R.SPEED_INCREASE_FACTOR)
          R.MAX_BALL_SPEED) :
    ((R.updateGame W H s).ball.speed =
        min (R.INITIAL_BALL_SPEED +
              ((R.updateGame W H s).totalBricksDestroyed : ℝ) * R.SPEED_INCREASE_FACTOR)
          R.MAX_BALL_SPEED)
  ∧ s.ball.speed ≤ (R.updateGame W H s).ball.speed
  ∧ 2 ≤ (R.updateGame W H s).ball.speed
  ∧ (R.updateGame W H s).ball.speed ≤ 8
  ∧ (R.initialState W H coin).ball.speed = 2
  ∧ (R.resetGame W H coin s).ball.speed = 2 := by
  have htot := R.updateGame_total W H s
  have hsp := R.updateGame_speed W H s
  by_cases hpos : 0 < R.hits (moveBall s.ball).toRect s.bricks
  · rw [if_pos hpos] at hsp
    have hinv : (R.updateGame W H s).ball.speed =
        min (R.INITIAL_BALL_SPEED +
              ((R.updateGame W H s).totalBricksDestroyed : ℝ) * R.SPEED_INCREASE_FACTOR)
          R.MAX_BALL_SPEED := by
      rw [hsp, htot]
    refine ⟨hinv, ?_, ?_, ?_, rfl, rfl⟩
    · rw [hs, hsp]
      exact R.speed_formula_mono (Nat.le_add_right _ _)
    · rw [hsp]
      exact (R.speed_formula_bounds _).1
    · rw [hsp]
      exact (R.speed_formula_bounds _).2
  · have hz : R.hits (moveBall s.ball).toRect s.bricks = 0 := by omega
    rw [if_neg hpos] at hsp
    have hinv : (R.updateGame W H s).ball.speed =
        min (R.INITIAL_BALL_SPEED +
              ((R.updateGame W H s).totalBricksDestroyed : ℝ) * R.SPEED_INCREASE_FACTOR)
          R.MAX_BALL_SPEED := by
      rw [hsp, htot, hz, Nat.add_zero, hs]
    refine ⟨hinv, ?_, ?_, ?_, rfl, rfl⟩
    · rw [hsp]
    · rw [hsp, hs]
      exact (R.speed_formula_bounds _).1
    · rw [hsp, hs]
      exact (R.speed_formula_bounds _).2

/-- Witness for C10: a fresh-speed state stays at speed 2 within
bounds after a step with no brick in reach. -/
theorem spec_C10_witness :
    2 ≤ (R.updateGame 1200 800 R.w10state).ball.speed
  ∧ (R.updateGame 1200 800 R.w10state).ball.speed ≤ 8 := by
  have hs : R.w10state.ball.speed =
      min (R.INITIAL_BALL_SPEED +
            (R.w10state.totalBricksDestroyed : ℝ) * R.SPEED_INCREASE_FACTOR)
        R.MAX_BALL_SPEED := by
    show (2:ℝ) = min (R.INITIAL_BALL_SPEED + ((0:ℕ) : ℝ) * R.SPEED_INCREASE_FACTOR)
      R.MAX_BALL_SPEED
    rw [R.INITIAL_BALL_SPEED, R.SPEED_INCREASE_FACTOR, R.MAX_BALL_SPEED]
    norm_num
  have h := spec_C10 1200 800 true R.w10state hs
  exact ⟨h.2.2.1, h.2.2.2.1⟩
